import Mathlib

/-!
Verification of the procedural terrain / road / scatter core of `src/main.js`
(a three.js driving demo).

The numeric model uses exact rationals (`ℚ`) for JavaScript numbers.  JavaScript
operations that are not field operations are embedded explicitly:
`Math.floor` is `Int.floor`, the JS remainder operator `%` truncates toward
zero (sign of the dividend), and a `Uint8Array` store applies ECMAScript
`ToUint8` (truncate, then reduce mod 256).

External three.js entities (the noise object, `Math.sin`, `Math.PI`,
`Math.random`, the Catmull-Rom arc length and the tube-sweep vertex placement)
are black boxes: they appear as function or scalar parameters, constrained only
by the contracts the spec states for them (e.g. noise values lie in [-1, 1]).
-/

namespace CarGameRoad

/-! ### JavaScript numeric primitives -/

/-- JS `Math.trunc` / the implicit truncation of the `%` operator:
round toward zero. -/
def jsTrunc (q : ℚ) : ℤ :=
  if 0 ≤ q then ⌊q⌋ else ⌈q⌉

/-- The JavaScript remainder operator `a % b`: `a - b * trunc (a / b)`.
Its sign follows the dividend, so it is negative for negative `a`. -/
def jsMod (a b : ℚ) : ℚ :=
  a - b * jsTrunc (a / b)

/-- ECMAScript `ToUint8`, applied on every store into a `Uint8Array`:
truncate toward zero, then reduce modulo 2^8 into [0, 255]. -/
def jsToUint8 (q : ℚ) : ℕ :=
  (jsTrunc q % 256).toNat

/-! ### Configuration constants (src/main.js lines 26-35, 127-129) -/

def terrainWidth : ℚ := 400
def terrainDepth : ℚ := 800
def resolution : ℕ := 128
def heightScale : ℚ := 30
def noiseScale : ℚ := 1 / 100

def roadWidth : ℚ := 12
def roadSegments : ℕ := 100
def roadTextureRepeat : ℚ := 10

def worldWidth : ℕ := resolution
def worldDepth : ℕ := resolution

/-- `size = worldWidth * worldDepth`: the number of height samples. -/
def size : ℕ := worldWidth * worldDepth

/-! ### Heightfield build (createTerrain, lines 134-154)

`data[i] = (noise.noise(x, z, 0) * 0.5 + 0.5) * 128` stored through a
`Uint8Array`, then `vertices[3*i+1] = data[i] * (heightScale / 128)`.
The noise object is a black-box parameter `noiseFn`. -/

/-- The `Uint8Array` entry `data[i]` written by the build loop. -/
def dataVal (noiseFn : ℚ → ℚ → ℚ → ℚ) (i : ℕ) : ℕ :=
  jsToUint8 ((noiseFn ((i % worldWidth : ℕ) * noiseScale)
      ((i / worldWidth : ℕ) * noiseScale) 0 * (1 / 2) + 1 / 2) * 128)

/-- The up-axis (y) coordinate assigned to terrain vertex `i`. -/
def vertexY (noiseFn : ℚ → ℚ → ℚ → ℚ) (i : ℕ) : ℚ :=
  (dataVal noiseFn i : ℚ) * (heightScale / 128)

/-! ### Height query (getTerrainHeight, lines 185-226) -/

/-- Grid cell size along x: `terrainWidth / (worldWidth - 1)`. -/
def cellW : ℚ := terrainWidth / ((worldWidth : ℚ) - 1)

/-- Grid cell size along z: `terrainDepth / (worldDepth - 1)`. -/
def cellD : ℚ := terrainDepth / ((worldDepth : ℚ) - 1)

/-- `gridX = Math.floor(localX / (terrainWidth / (worldWidth - 1)))`. -/
def gridXOf (x : ℚ) : ℤ :=
  ⌊(x + terrainWidth / 2) / cellW⌋

/-- `gridZ = Math.floor(localZ / (terrainDepth / (worldDepth - 1)))`. -/
def gridZOf (z : ℚ) : ℤ :=
  ⌊(z + terrainDepth / 2) / cellD⌋

/-- `clampedGridX = Math.max(0, Math.min(worldWidth - 2, gridX))`. -/
def clampedGridX (x : ℚ) : ℤ :=
  max 0 (min ((worldWidth : ℤ) - 2) (gridXOf x))

/-- `clampedGridZ = Math.max(0, Math.min(worldDepth - 2, gridZ))`. -/
def clampedGridZ (z : ℚ) : ℤ :=
  max 0 (min ((worldDepth : ℤ) - 2) (gridZOf z))

/-- `p00Index = clampedGridZ * worldWidth + clampedGridX`. -/
def p00Index (x z : ℚ) : ℤ :=
  clampedGridZ z * worldWidth + clampedGridX x

/-- `p10Index = clampedGridZ * worldWidth + clampedGridX + 1`. -/
def p10Index (x z : ℚ) : ℤ :=
  clampedGridZ z * worldWidth + clampedGridX x + 1

/-- `p01Index = (clampedGridZ + 1) * worldWidth + clampedGridX`. -/
def p01Index (x z : ℚ) : ℤ :=
  (clampedGridZ z + 1) * worldWidth + clampedGridX x

/-- `p11Index = (clampedGridZ + 1) * worldWidth + clampedGridX + 1`. -/
def p11Index (x z : ℚ) : ℤ :=
  (clampedGridZ z + 1) * worldWidth + clampedGridX x + 1

/-- The fractional weight `u = (localX % cellW) / cellW`.  Note the JS `%` is
applied to the raw (unclamped) local coordinate. -/
def fracU (x : ℚ) : ℚ :=
  jsMod (x + terrainWidth / 2) cellW / cellW

/-- The fractional weight `v = (localZ % cellD) / cellD`. -/
def fracV (z : ℚ) : ℚ :=
  jsMod (z + terrainDepth / 2) cellD / cellD

/-- `getTerrainHeight(x, z)`.  The terrain's vertex position buffer is modelled
as `Option (ℕ → ℚ)`: `none` when `terrainMesh` (or its geometry / position
attribute) is not yet built, in which case the function returns 0; otherwise
`some getY` reads the y coordinate of a vertex index, mirroring
`terrainMesh.geometry.attributes.position.getY`. -/
def getTerrainHeight (terrain : Option (ℕ → ℚ)) (x z : ℚ) : ℚ :=
  match terrain with
  | none => 0
  | some getY =>
    let y00 := getY (p00Index x z).toNat
    let y10 := getY (p10Index x z).toNat
    let y01 := getY (p01Index x z).toNat
    let y11 := getY (p11Index x z).toNat
    let u := fracU x
    let v := fracV z
    (1 - u) * (1 - v) * y00 + u * (1 - v) * y10 + (1 - u) * v * y01 + u * v * y11

/-- World x coordinate of grid column `ix`.  The plane geometry spans
`[-terrainWidth/2, terrainWidth/2]` in `worldWidth - 1` equal steps (spec §3:
grid indices map linearly onto the world rectangle). -/
def vertexWorldX (ix : ℕ) : ℚ :=
  -(terrainWidth / 2) + ix * cellW

/-- World z coordinate of grid row `iy` after the plane is rotated flat. -/
def vertexWorldZ (iy : ℕ) : ℚ :=
  -(terrainDepth / 2) + iy * cellD

/-- The nearest point of `[-terrainWidth/2, terrainWidth/2]` to `x`. -/
def clampToTerrainX (x : ℚ) : ℚ :=
  max (-(terrainWidth / 2)) (min (terrainWidth / 2) x)

/-- The nearest point of `[-terrainDepth/2, terrainDepth/2]` to `z`. -/
def clampToTerrainZ (z : ℚ) : ℚ :=
  max (-(terrainDepth / 2)) (min (terrainDepth / 2) z)

/-! ### Arithmetic helper lemmas -/

theorem jsTrunc_of_nonneg {q : ℚ} (h : 0 ≤ q) : jsTrunc q = ⌊q⌋ :=
  if_pos h

theorem jsTrunc_of_neg {q : ℚ} (h : ¬ 0 ≤ q) : jsTrunc q = ⌈q⌉ :=
  if_neg h

/-- For a nonnegative dividend and positive divisor, the JS remainder agrees
with the mathematical fractional part: `a % b = b * fract (a / b)`. -/
theorem jsMod_eq_fract {a b : ℚ} (ha : 0 ≤ a) (hb : 0 < b) :
    jsMod a b = b * Int.fract (a / b) := by
  rw [jsMod, jsTrunc_of_nonneg (by positivity), Int.fract]
  rw [mul_sub, mul_div_cancel₀ _ hb.ne']

theorem jsMod_nonneg {a b : ℚ} (ha : 0 ≤ a) (hb : 0 < b) : 0 ≤ jsMod a b := by
  rw [jsMod_eq_fract ha hb]
  exact mul_nonneg hb.le (Int.fract_nonneg _)

theorem jsMod_lt {a b : ℚ} (ha : 0 ≤ a) (hb : 0 < b) : jsMod a b < b := by
  rw [jsMod_eq_fract ha hb]
  calc b * Int.fract (a / b) < b * 1 :=
        (mul_lt_mul_left hb).mpr (Int.fract_lt_one _)
    _ = b := mul_one b

/-- The JS remainder of an exact multiple of the divisor is zero. -/
theorem jsMod_natCast_mul {b : ℚ} (n : ℕ) (hb : 0 < b) : jsMod (n * b) b = 0 := by
  rw [jsMod, mul_div_assoc, div_self hb.ne', mul_one,
    jsTrunc_of_nonneg (by positivity), Int.floor_natCast]
  push_cast
  ring

/-- Unfolding of the height query when the terrain mesh exists. -/
theorem getTerrainHeight_some (getY : ℕ → ℚ) (x z : ℚ) :
    getTerrainHeight (some getY) x z =
      (1 - fracU x) * (1 - fracV z) * getY (p00Index x z).toNat +
        fracU x * (1 - fracV z) * getY (p10Index x z).toNat +
        (1 - fracU x) * fracV z * getY (p01Index x z).toNat +
        fracU x * fracV z * getY (p11Index x z).toNat :=
  rfl

theorem clampedGridX_nonneg (x : ℚ) : 0 ≤ clampedGridX x :=
  le_max_left 0 _

theorem clampedGridX_le (x : ℚ) : clampedGridX x ≤ (worldWidth : ℤ) - 2 :=
  max_le (by norm_num [worldWidth, resolution]) (min_le_left _ _)

theorem clampedGridZ_nonneg (z : ℚ) : 0 ≤ clampedGridZ z :=
  le_max_left 0 _

theorem clampedGridZ_le (z : ℚ) : clampedGridZ z ≤ (worldDepth : ℤ) - 2 :=
  max_le (by norm_num [worldDepth, resolution]) (min_le_left _ _)

/-! ### Claim C9 -/

/-- C9: if the terrain mesh (or its geometry / position attribute) has not been
built yet, `getTerrainHeight(x, z)` returns 0 for every input, instead of
raising an error. -/
theorem c9_unbuilt_terrain_returns_zero (x z : ℚ) :
    getTerrainHeight none x z = 0 :=
  rfl

/-! ### Claim C4 -/

/-- C4: for every real-valued input `(x, z)`, the clamped cell indices lie in
`[0, worldWidth - 2] × [0, worldDepth - 2]`, and all four corner indices
`p00, p10, p01, p11` are valid positions of the `worldWidth × worldDepth`
vertex buffer, so the height query never reads the grid out of bounds. -/
theorem c4_corner_indices_in_bounds (x z : ℚ) :
    (0 ≤ clampedGridX x ∧ clampedGridX x ≤ (worldWidth : ℤ) - 2) ∧
    (0 ≤ clampedGridZ z ∧ clampedGridZ z ≤ (worldDepth : ℤ) - 2) ∧
    (0 ≤ p00Index x z ∧ p00Index x z < (size : ℤ)) ∧
    (0 ≤ p10Index x z ∧ p10Index x z < (size : ℤ)) ∧
    (0 ≤ p01Index x z ∧ p01Index x z < (size : ℤ)) ∧
    (0 ≤ p11Index x z ∧ p11Index x z < (size : ℤ)) := by
  have hx0 := clampedGridX_nonneg x
  have hx1 := clampedGridX_le x
  have hz0 := clampedGridZ_nonneg z
  have hz1 := clampedGridZ_le z
  have hW : worldWidth = 128 := rfl
  have hD : worldDepth = 128 := rfl
  have hS : size = 16384 := rfl
  rw [hW] at hx1
  rw [hD] at hz1
  simp only [p00Index, p10Index, p01Index, p11Index, hW, hD, hS]
  push_cast
  omega

/-! ### Claim C2 -/

/-- C2: at every grid vertex `(ix, iy)` whose world position lies strictly
inside the terrain rectangle, the height query returns exactly the stored grid
value at that vertex: the bilinear weights degenerate to 0 there. -/
theorem c2_grid_vertex_exact (getY : ℕ → ℚ) (ix iy : ℕ)
    (hx1 : 1 ≤ ix) (hx2 : ix ≤ worldWidth - 2)
    (hz1 : 1 ≤ iy) (hz2 : iy ≤ worldDepth - 2) :
    getTerrainHeight (some getY) (vertexWorldX ix) (vertexWorldZ iy) =
      getY (iy * worldWidth + ix) := by
  have hW : worldWidth = 128 := rfl
  have hD : worldDepth = 128 := rfl
  have hcw : cellW = 400 / 127 := by norm_num [cellW, terrainWidth, worldWidth, resolution]
  have hcd : cellD = 800 / 127 := by norm_num [cellD, terrainDepth, worldDepth, resolution]
  have hcwpos : (0 : ℚ) < cellW := by rw [hcw]; norm_num
  have hcdpos : (0 : ℚ) < cellD := by rw [hcd]; norm_num
  have hlx : vertexWorldX ix + terrainWidth / 2 = (ix : ℚ) * cellW := by
    rw [vertexWorldX]; ring
  have hlz : vertexWorldZ iy + terrainDepth / 2 = (iy : ℚ) * cellD := by
    rw [vertexWorldZ]; ring
  have hgx : gridXOf (vertexWorldX ix) = (ix : ℤ) := by
    rw [gridXOf, hlx, mul_div_assoc, div_self hcwpos.ne', mul_one, Int.floor_natCast]
  have hgz : gridZOf (vertexWorldZ iy) = (iy : ℤ) := by
    rw [gridZOf, hlz, mul_div_assoc, div_self hcdpos.ne', mul_one, Int.floor_natCast]
  have hcx : clampedGridX (vertexWorldX ix) = (ix : ℤ) := by
    rw [clampedGridX, hgx, hW]
    rw [hW] at hx2
    omega
  have hcz : clampedGridZ (vertexWorldZ iy) = (iy : ℤ) := by
    rw [clampedGridZ, hgz, hD]
    rw [hD] at hz2
    omega
  have hu : fracU (vertexWorldX ix) = 0 := by
    rw [fracU, hlx, jsMod_natCast_mul _ hcwpos, zero_div]
  have hv : fracV (vertexWorldZ iy) = 0 := by
    rw [fracV, hlz, jsMod_natCast_mul _ hcdpos, zero_div]
  have hidx : (p00Index (vertexWorldX ix) (vertexWorldZ iy)).toNat =
      iy * worldWidth + ix := by
    rw [p00Index, hcx, hcz]
    have : (iy : ℤ) * (worldWidth : ℤ) + (ix : ℤ) = ((iy * worldWidth + ix : ℕ) : ℤ) := by
      push_cast; ring
    rw [this, Int.toNat_natCast]
  rw [getTerrainHeight_some, hu, hv, hidx]
  ring

/-! ### Claim C1 -/

theorem cellW_eq : cellW = 400 / 127 := by
  norm_num [cellW, terrainWidth, worldWidth, resolution]

theorem cellD_eq : cellD = 800 / 127 := by
  norm_num [cellD, terrainDepth, worldDepth, resolution]

theorem cellW_pos : (0 : ℚ) < cellW := by rw [cellW_eq]; norm_num

theorem cellD_pos : (0 : ℚ) < cellD := by rw [cellD_eq]; norm_num

/-- A concrete noise function within the spec's noise contract (values in
`[-1, 1]`): `-1` on the grid column `x = 0`, `1` elsewhere. -/
def nzNoise : ℚ → ℚ → ℚ → ℚ :=
  fun x _ _ => if x = 0 then -1 else 1

theorem vertexY_nzNoise_col0 : vertexY nzNoise 0 = 0 ∧ vertexY nzNoise 128 = 0 := by
  constructor <;>
    norm_num [vertexY, dataVal, jsToUint8, jsTrunc, nzNoise, noiseScale,
      worldWidth, resolution, heightScale]

theorem vertexY_nzNoise_col1 : vertexY nzNoise 1 = 30 ∧ vertexY nzNoise 129 = 30 := by
  constructor <;>
    norm_num [vertexY, dataVal, jsToUint8, jsTrunc, nzNoise, noiseScale,
      worldWidth, resolution, heightScale, Int.toNat]

theorem clampedGridX_at_neg205 : clampedGridX (-205) = 0 := by
  rw [clampedGridX, gridXOf]
  have h1 : ((-205 : ℚ) + terrainWidth / 2) / cellW = -(127 / 80) := by
    rw [cellW_eq]; norm_num [terrainWidth]
  have h2 : (⌊(-(127 / 80) : ℚ)⌋ : ℤ) = -2 := by norm_num
  rw [h1, h2]
  norm_num [worldWidth, resolution]

theorem clampedGridX_at_neg200 : clampedGridX (-200) = 0 := by
  rw [clampedGridX, gridXOf]
  have h1 : ((-200 : ℚ) + terrainWidth / 2) / cellW = 0 := by
    rw [cellW_eq]; norm_num [terrainWidth]
  rw [h1]
  norm_num [worldWidth, resolution]

theorem clampedGridZ_at_neg400 : clampedGridZ (-400) = 0 := by
  rw [clampedGridZ, gridZOf]
  have h1 : ((-400 : ℚ) + terrainDepth / 2) / cellD = 0 := by
    rw [cellD_eq]; norm_num [terrainDepth]
  rw [h1]
  norm_num [worldDepth, resolution]

theorem fracU_at_neg205 : fracU (-205) = -(47 / 80) := by
  have h5 : ((-205 : ℚ) + terrainWidth / 2) = -5 := by norm_num [terrainWidth]
  rw [fracU, h5, cellW_eq, jsMod]
  have harg : (-5 : ℚ) / (400 / 127) = -(127 / 80) := by norm_num
  rw [harg, jsTrunc_of_neg (by norm_num)]
  have hc : (⌈(-(127 / 80) : ℚ)⌉ : ℤ) = -1 := by
    rw [Int.ceil_eq_iff]
    norm_num
  rw [hc]
  norm_num

theorem fracU_at_neg200 : fracU (-200) = 0 := by
  have h0 : ((-200 : ℚ) + terrainWidth / 2) = ((0 : ℕ) : ℚ) * cellW := by
    norm_num [terrainWidth]
  rw [fracU, h0, jsMod_natCast_mul 0 cellW_pos, zero_div]

theorem fracV_at_neg400 : fracV (-400) = 0 := by
  have h0 : ((-400 : ℚ) + terrainDepth / 2) = ((0 : ℕ) : ℚ) * cellD := by
    norm_num [terrainDepth]
  rw [fracV, h0, jsMod_natCast_mul 0 cellD_pos, zero_div]

theorem clampToTerrainX_at_neg205 : clampToTerrainX (-205) = -200 := by
  rw [clampToTerrainX, min_eq_right (by norm_num [terrainWidth] : (-205 : ℚ) ≤ terrainWidth / 2),
    max_eq_left (by norm_num [terrainWidth] : (-205 : ℚ) ≤ -(terrainWidth / 2))]
  norm_num [terrainWidth]

theorem clampToTerrainZ_at_neg400 : clampToTerrainZ (-400) = -400 := by
  rw [clampToTerrainZ, min_eq_right (by norm_num [terrainDepth] : (-400 : ℚ) ≤ terrainDepth / 2),
    max_eq_left (by norm_num [terrainDepth] : (-400 : ℚ) ≤ -(terrainDepth / 2))]
  norm_num [terrainDepth]

/-- Counterexample to C1: the input `(-205, -400)` lies outside the terrain
rectangle; its nearest point in the rectangle is `(-200, -400)`, yet the height
query differs between the two (the terrain is built from a noise function
within the `[-1, 1]` contract).  The query's cell indices are clamped, but the
interpolation weight `u = (localX % cellW) / cellW` is taken from the raw
coordinate and is negative here, so the result extrapolates instead of
matching the boundary value. -/
theorem c1_clamping_counterexample :
    (-205 : ℚ) < -(terrainWidth / 2) ∧
      getTerrainHeight (some (vertexY nzNoise)) (-205) (-400) ≠
        getTerrainHeight (some (vertexY nzNoise))
          (clampToTerrainX (-205)) (clampToTerrainZ (-400)) := by
  constructor
  · norm_num [terrainWidth]
  rw [clampToTerrainX_at_neg205, clampToTerrainZ_at_neg400]
  rw [getTerrainHeight_some, getTerrainHeight_some]
  rw [fracU_at_neg205, fracU_at_neg200, fracV_at_neg400]
  simp only [p00Index, p10Index, p01Index, p11Index,
    clampedGridX_at_neg205, clampedGridX_at_neg200, clampedGridZ_at_neg400]
  norm_num [worldWidth, resolution, vertexY_nzNoise_col0.1, vertexY_nzNoise_col0.2,
    vertexY_nzNoise_col1.1, vertexY_nzNoise_col1.2]

theorem clampedGridX_clampToTerrainX (x : ℚ) :
    clampedGridX (clampToTerrainX x) = clampedGridX x := by
  have hW : (worldWidth : ℤ) - 2 = 126 := by norm_num [worldWidth, resolution]
  rcases le_total x (-(terrainWidth / 2)) with hx | hx
  · have hclamp : clampToTerrainX x = -(terrainWidth / 2) := by
      rw [clampToTerrainX,
        min_eq_right (hx.trans (by norm_num [terrainWidth])), max_eq_left hx]
    rw [hclamp]
    have hxg : gridXOf x ≤ 0 := by
      rw [gridXOf]
      have h1 : (x + terrainWidth / 2) / cellW ≤ 0 := by
        apply div_nonpos_of_nonpos_of_nonneg _ cellW_pos.le
        linarith
      calc ⌊(x + terrainWidth / 2) / cellW⌋ ≤ ⌊(0 : ℚ)⌋ := Int.floor_le_floor h1
        _ = 0 := Int.floor_zero
    have hg200 : gridXOf (-(terrainWidth / 2)) = 0 := by
      rw [gridXOf]
      norm_num
    rw [clampedGridX, clampedGridX, hg200, hW]
    omega
  · rcases le_total x (terrainWidth / 2) with hx2 | hx2
    · rw [clampToTerrainX, min_eq_right hx2, max_eq_right hx]
    · have hclamp : clampToTerrainX x = terrainWidth / 2 := by
        rw [clampToTerrainX, min_eq_left hx2,
          max_eq_right (by norm_num [terrainWidth] : -(terrainWidth / 2) ≤ terrainWidth / 2)]
      rw [hclamp]
      have hxg : 127 ≤ gridXOf x := by
        rw [gridXOf]
        apply Int.le_floor.mpr
        rw [le_div_iff₀ cellW_pos, cellW_eq]
        push_cast
        norm_num [terrainWidth] at hx2 ⊢
        linarith
      have hg200 : gridXOf (terrainWidth / 2) = 127 := by
        rw [gridXOf]
        have h1 : (terrainWidth / 2 + terrainWidth / 2) / cellW = 127 := by
          rw [cellW_eq]; norm_num [terrainWidth]
        rw [h1]
        norm_num
      rw [clampedGridX, clampedGridX, hg200, hW]
      omega

theorem clampedGridZ_clampToTerrainZ (z : ℚ) :
    clampedGridZ (clampToTerrainZ z) = clampedGridZ z := by
  have hD : (worldDepth : ℤ) - 2 = 126 := by norm_num [worldDepth, resolution]
  rcases le_total z (-(terrainDepth / 2)) with hz | hz
  · have hclamp : clampToTerrainZ z = -(terrainDepth / 2) := by
      rw [clampToTerrainZ,
        min_eq_right (hz.trans (by norm_num [terrainDepth])), max_eq_left hz]
    rw [hclamp]
    have hzg : gridZOf z ≤ 0 := by
      rw [gridZOf]
      have h1 : (z + terrainDepth / 2) / cellD ≤ 0 := by
        apply div_nonpos_of_nonpos_of_nonneg _ cellD_pos.le
        linarith
      calc ⌊(z + terrainDepth / 2) / cellD⌋ ≤ ⌊(0 : ℚ)⌋ := Int.floor_le_floor h1
        _ = 0 := Int.floor_zero
    have hg400 : gridZOf (-(terrainDepth / 2)) = 0 := by
      rw [gridZOf]
      norm_num
    rw [clampedGridZ, clampedGridZ, hg400, hD]
    omega
  · rcases le_total z (terrainDepth / 2) with hz2 | hz2
    · rw [clampToTerrainZ, min_eq_right hz2, max_eq_right hz]
    · have hclamp : clampToTerrainZ z = terrainDepth / 2 := by
        rw [clampToTerrainZ, min_eq_left hz2,
          max_eq_right (by norm_num [terrainDepth] : -(terrainDepth / 2) ≤ terrainDepth / 2)]
      rw [hclamp]
      have hzg : 127 ≤ gridZOf z := by
        rw [gridZOf]
        apply Int.le_floor.mpr
        rw [le_div_iff₀ cellD_pos, cellD_eq]
        push_cast
        norm_num [terrainDepth] at hz2 ⊢
        linarith
      have hg400 : gridZOf (terrainDepth / 2) = 127 := by
        rw [gridZOf]
        have h1 : (terrainDepth / 2 + terrainDepth / 2) / cellD = 127 := by
          rw [cellD_eq]; norm_num [terrainDepth]
        rw [h1]
        norm_num
      rw [clampedGridZ, clampedGridZ, hg400, hD]
      omega

/-- C1 amended: for every input `(x, z)` — in particular far outside the
terrain rectangle — the *cell indices* used by the height query coincide with
those used at the nearest point of the rectangle, so the same four grid corner
values are read; but the interpolation weights are computed from the unclamped
coordinates, so the returned value is generally not the boundary value (see
the counterexample). -/
theorem c1_amended_corner_reads_clamped (x z : ℚ) :
    clampedGridX (clampToTerrainX x) = clampedGridX x ∧
    clampedGridZ (clampToTerrainZ z) = clampedGridZ z ∧
    p00Index (clampToTerrainX x) (clampToTerrainZ z) = p00Index x z ∧
    p10Index (clampToTerrainX x) (clampToTerrainZ z) = p10Index x z ∧
    p01Index (clampToTerrainX x) (clampToTerrainZ z) = p01Index x z ∧
    p11Index (clampToTerrainX x) (clampToTerrainZ z) = p11Index x z := by
  have hx := clampedGridX_clampToTerrainX x
  have hz := clampedGridZ_clampToTerrainZ z
  exact ⟨hx, hz, by rw [p00Index, p00Index, hx, hz], by rw [p10Index, p10Index, hx, hz],
    by rw [p01Index, p01Index, hx, hz], by rw [p11Index, p11Index, hx, hz]⟩

/-- Witness for C2 at the concrete vertex `(ix, iy) = (3, 5)` with an explicit
position buffer. -/
theorem c2_grid_vertex_exact_witness :
    1 ≤ 3 ∧ 3 ≤ worldWidth - 2 ∧ 1 ≤ 5 ∧ 5 ≤ worldDepth - 2 ∧
      getTerrainHeight (some (fun i : ℕ => (i : ℚ))) (vertexWorldX 3) (vertexWorldZ 5) =
        ((5 * worldWidth + 3 : ℕ) : ℚ) :=
  ⟨by norm_num, by norm_num [worldWidth, resolution], by norm_num,
    by norm_num [worldDepth, resolution],
    c2_grid_vertex_exact (fun i : ℕ => (i : ℚ)) 3 5 (by norm_num)
      (by norm_num [worldWidth, resolution]) (by norm_num)
      (by norm_num [worldDepth, resolution])⟩

end CarGameRoad

namespace CarGameRoad

/-! ### Claim C3 -/

/-- For arguments in `[0, 256)`, the `Uint8Array` store is just the floor. -/
theorem jsToUint8_eq_floor {q : ℚ} (h0 : 0 ≤ q) (h1 : q < 256) :
    (jsToUint8 q : ℤ) = ⌊q⌋ := by
  rw [jsToUint8, jsTrunc_of_nonneg h0]
  have hf0 : 0 ≤ ⌊q⌋ := Int.floor_nonneg.mpr h0
  have hf1 : ⌊q⌋ < 256 := Int.floor_lt.mpr (by exact_mod_cast h1)
  rw [Int.emod_eq_of_lt hf0 hf1, Int.toNat_of_nonneg hf0]

/-- A concrete noise function within the `[-1, 1]` contract whose sample does
not hit an exact `Uint8` value. -/
def cNoise : ℚ → ℚ → ℚ → ℚ :=
  fun _ _ _ => 3 / 10

/-- Counterexample to C3: with the in-contract noise value `3/10`, vertex 0 of
the built grid has height `83 * 30/128 = 1245/64`, not
`(3/10 * 0.5 + 0.5) * 30 = 39/2`: the store into the `Uint8Array` truncates
the scaled sample, so the claimed exact (unquantized) equality fails. -/
theorem c3_exact_height_counterexample :
    (-1 ≤ cNoise (((0 : ℕ) % worldWidth : ℕ) * noiseScale)
        (((0 : ℕ) / worldWidth : ℕ) * noiseScale) 0 ∧
      cNoise (((0 : ℕ) % worldWidth : ℕ) * noiseScale)
        (((0 : ℕ) / worldWidth : ℕ) * noiseScale) 0 ≤ 1) ∧
    vertexY cNoise 0 ≠
      (cNoise (((0 : ℕ) % worldWidth : ℕ) * noiseScale)
          (((0 : ℕ) / worldWidth : ℕ) * noiseScale) 0 * (1 / 2) + 1 / 2) *
        heightScale := by
  refine ⟨⟨by norm_num [cNoise], by norm_num [cNoise]⟩, ?_⟩
  norm_num [vertexY, dataVal, jsToUint8, jsTrunc, cNoise, noiseScale,
    worldWidth, resolution, heightScale, Int.toNat]

/-- C3 amended: each vertex's up-axis coordinate equals the noise sample at
`(i * noiseScale, j * noiseScale, 0)`, normalized from `[-1, 1]` to `[0, 1]`,
scaled by 128 and **truncated to an integer by the `Uint8Array` store**, then
scaled by `heightScale / 128`. -/
theorem c3_amended_quantized_height (noiseFn : ℚ → ℚ → ℚ → ℚ) (i : ℕ)
    (h1 : -1 ≤ noiseFn ((i % worldWidth : ℕ) * noiseScale)
        ((i / worldWidth : ℕ) * noiseScale) 0)
    (h2 : noiseFn ((i % worldWidth : ℕ) * noiseScale)
        ((i / worldWidth : ℕ) * noiseScale) 0 ≤ 1) :
    vertexY noiseFn i =
      ((⌊(noiseFn ((i % worldWidth : ℕ) * noiseScale)
            ((i / worldWidth : ℕ) * noiseScale) 0 * (1 / 2) + 1 / 2) * 128⌋ : ℤ) : ℚ) *
        (heightScale / 128) := by
  have hq0 : 0 ≤ (noiseFn ((i % worldWidth : ℕ) * noiseScale)
      ((i / worldWidth : ℕ) * noiseScale) 0 * (1 / 2) + 1 / 2) * 128 := by nlinarith
  have hq1 : (noiseFn ((i % worldWidth : ℕ) * noiseScale)
      ((i / worldWidth : ℕ) * noiseScale) 0 * (1 / 2) + 1 / 2) * 128 < 256 := by nlinarith
  have h := jsToUint8_eq_floor hq0 hq1
  rw [vertexY, dataVal]
  congr 1
  exact_mod_cast h

/-- Witness for the amended C3 at the concrete noise function `cNoise`. -/
theorem c3_amended_quantized_height_witness :
    (-1 ≤ cNoise (((7 : ℕ) % worldWidth : ℕ) * noiseScale)
        (((7 : ℕ) / worldWidth : ℕ) * noiseScale) 0) ∧
    (cNoise (((7 : ℕ) % worldWidth : ℕ) * noiseScale)
        (((7 : ℕ) / worldWidth : ℕ) * noiseScale) 0 ≤ 1) ∧
    vertexY cNoise 7 =
      ((⌊(cNoise (((7 : ℕ) % worldWidth : ℕ) * noiseScale)
            (((7 : ℕ) / worldWidth : ℕ) * noiseScale) 0 * (1 / 2) + 1 / 2) * 128⌋ : ℤ) : ℚ) *
        (heightScale / 128) :=
  ⟨by norm_num [cNoise], by norm_num [cNoise],
    c3_amended_quantized_height cNoise 7 (by norm_num [cNoise]) (by norm_num [cNoise])⟩

/-! ### Claim C5 -/

/-- For any noise function within the `[-1, 1]` contract, every vertex height
lies in `[0, heightScale]`. -/
theorem vertexY_bounds (noiseFn : ℚ → ℚ → ℚ → ℚ)
    (h : ∀ a b c, -1 ≤ noiseFn a b c ∧ noiseFn a b c ≤ 1) (i : ℕ) :
    0 ≤ vertexY noiseFn i ∧ vertexY noiseFn i ≤ heightScale := by
  obtain ⟨h1, h2⟩ := h ((i % worldWidth : ℕ) * noiseScale)
    ((i / worldWidth : ℕ) * noiseScale) 0
  have hq0 : 0 ≤ (noiseFn ((i % worldWidth : ℕ) * noiseScale)
      ((i / worldWidth : ℕ) * noiseScale) 0 * (1 / 2) + 1 / 2) * 128 := by nlinarith
  have hq1 : (noiseFn ((i % worldWidth : ℕ) * noiseScale)
      ((i / worldWidth : ℕ) * noiseScale) 0 * (1 / 2) + 1 / 2) * 128 ≤ 128 := by nlinarith
  have hfl := jsToUint8_eq_floor hq0 (by linarith)
  have hcast : ((dataVal noiseFn i : ℚ)) =
      ((⌊(noiseFn ((i % worldWidth : ℕ) * noiseScale)
          ((i / worldWidth : ℕ) * noiseScale) 0 * (1 / 2) + 1 / 2) * 128⌋ : ℤ) : ℚ) := by
    rw [dataVal]
    exact_mod_cast hfl
  constructor
  · rw [vertexY]
    have : (0 : ℚ) ≤ (dataVal noiseFn i : ℚ) := by positivity
    have hs : (0 : ℚ) < heightScale / 128 := by norm_num [heightScale]
    positivity
  · rw [vertexY, hcast]
    have hfle : ((⌊(noiseFn ((i % worldWidth : ℕ) * noiseScale)
        ((i / worldWidth : ℕ) * noiseScale) 0 * (1 / 2) + 1 / 2) * 128⌋ : ℤ) : ℚ) ≤ 128 :=
      (Int.floor_le _).trans hq1
    have hflge : (0 : ℚ) ≤ ((⌊(noiseFn ((i % worldWidth : ℕ) * noiseScale)
        ((i / worldWidth : ℕ) * noiseScale) 0 * (1 / 2) + 1 / 2) * 128⌋ : ℤ) : ℚ) := by
      exact_mod_cast Int.floor_nonneg.mpr hq0
    rw [heightScale] at *
    nlinarith

/-- C5: with the configuration `resolution = 128`, `terrainWidth = 400`,
`terrainDepth = 800`, `heightScale = 30`, the built grid has exactly
`128 * 128 = 16384` samples, and for every noise function with values in
`[-1, 1]` every vertex height lies in `[0, 30]`. -/
theorem c5_grid_size_and_height_range (noiseFn : ℚ → ℚ → ℚ → ℚ)
    (h : ∀ a b c, -1 ≤ noiseFn a b c ∧ noiseFn a b c ≤ 1) :
    resolution = 128 ∧ terrainWidth = 400 ∧ terrainDepth = 800 ∧ heightScale = 30 ∧
      size = 128 * 128 ∧
      (∀ i : ℕ, 0 ≤ vertexY noiseFn i ∧ vertexY noiseFn i ≤ 30) := by
  refine ⟨rfl, rfl, rfl, rfl, rfl, fun i => ?_⟩
  have := vertexY_bounds noiseFn h i
  rwa [heightScale] at this

/-- Witness for C5 at the constant noise function `0`. -/
theorem c5_grid_size_and_height_range_witness :
    (∀ a b c : ℚ, -1 ≤ (fun (_ _ _ : ℚ) => (0 : ℚ)) a b c ∧
        (fun (_ _ _ : ℚ) => (0 : ℚ)) a b c ≤ 1) ∧
      (resolution = 128 ∧ terrainWidth = 400 ∧ terrainDepth = 800 ∧ heightScale = 30 ∧
        size = 128 * 128 ∧
        (∀ i : ℕ, 0 ≤ vertexY (fun (_ _ _ : ℚ) => (0 : ℚ)) i ∧
          vertexY (fun (_ _ _ : ℚ) => (0 : ℚ)) i ≤ 30)) :=
  ⟨fun _ _ _ => ⟨by norm_num, by norm_num⟩,
    c5_grid_size_and_height_range (fun (_ _ _ : ℚ) => (0 : ℚ))
      (fun _ _ _ => ⟨by norm_num, by norm_num⟩)⟩

end CarGameRoad

namespace CarGameRoad

/-! ### Claim C8 -/

theorem clampedGridX_at_neg206 : clampedGridX (-206) = 0 := by
  rw [clampedGridX, gridXOf]
  have h1 : ((-206 : ℚ) + terrainWidth / 2) / cellW = -(381 / 200) := by
    rw [cellW_eq]; norm_num [terrainWidth]
  have h2 : (⌊(-(381 / 200) : ℚ)⌋ : ℤ) = -2 := by norm_num
  rw [h1, h2]
  norm_num [worldWidth, resolution]

theorem fracU_at_neg206 : fracU (-206) = -(181 / 200) := by
  have h6 : ((-206 : ℚ) + terrainWidth / 2) = -6 := by norm_num [terrainWidth]
  rw [fracU, h6, cellW_eq, jsMod]
  have harg : (-6 : ℚ) / (400 / 127) = -(381 / 200) := by norm_num
  rw [harg, jsTrunc_of_neg (by norm_num)]
  have hc : (⌈(-(381 / 200) : ℚ)⌉ : ℤ) = -1 := by
    rw [Int.ceil_eq_iff]
    norm_num
  rw [hc]
  norm_num

/-- Counterexample to C8's "every getTerrainHeight result is a convex
combination of quantized corner values": at the out-of-bounds input
`(-206, -400)` the four corner heights read are `0, 30, 0, 30`, yet the
returned value is negative — outside the convex hull of the corners — because
the weight `u` is negative there. -/
theorem c8_convexity_counterexample :
    vertexY nzNoise (p00Index (-206) (-400)).toNat = 0 ∧
    vertexY nzNoise (p10Index (-206) (-400)).toNat = 30 ∧
    vertexY nzNoise (p01Index (-206) (-400)).toNat = 0 ∧
    vertexY nzNoise (p11Index (-206) (-400)).toNat = 30 ∧
    getTerrainHeight (some (vertexY nzNoise)) (-206) (-400) < 0 := by
  have hidx : p00Index (-206) (-400) = 0 ∧ p10Index (-206) (-400) = 1 ∧
      p01Index (-206) (-400) = 128 ∧ p11Index (-206) (-400) = 129 := by
    refine ⟨?_, ?_, ?_, ?_⟩ <;>
      simp only [p00Index, p10Index, p01Index, p11Index,
        clampedGridX_at_neg206, clampedGridZ_at_neg400] <;>
      norm_num [worldWidth, resolution]
  refine ⟨?_, ?_, ?_, ?_, ?_⟩
  · rw [hidx.1]; exact vertexY_nzNoise_col0.1
  · rw [hidx.2.1]; exact vertexY_nzNoise_col1.1
  · rw [hidx.2.2.1]; exact vertexY_nzNoise_col0.2
  · rw [hidx.2.2.2]; exact vertexY_nzNoise_col1.2
  · rw [getTerrainHeight_some, fracU_at_neg206, fracV_at_neg400,
      hidx.1, hidx.2.1, hidx.2.2.1, hidx.2.2.2]
    norm_num [vertexY_nzNoise_col0.1, vertexY_nzNoise_col0.2,
      vertexY_nzNoise_col1.1, vertexY_nzNoise_col1.2]

/-- A bilinear combination with weights in `[0, 1]` of values in `[0, M]`
stays in `[0, M]`. -/
theorem bilinear_mem_Icc {u v y00 y10 y01 y11 M : ℚ}
    (hu0 : 0 ≤ u) (hu1 : u ≤ 1) (hv0 : 0 ≤ v) (hv1 : v ≤ 1)
    (h00 : 0 ≤ y00) (h00M : y00 ≤ M) (h10 : 0 ≤ y10) (h10M : y10 ≤ M)
    (h01 : 0 ≤ y01) (h01M : y01 ≤ M) (h11 : 0 ≤ y11) (h11M : y11 ≤ M) :
    0 ≤ (1 - u) * (1 - v) * y00 + u * (1 - v) * y10 +
        (1 - u) * v * y01 + u * v * y11 ∧
      (1 - u) * (1 - v) * y00 + u * (1 - v) * y10 +
        (1 - u) * v * y01 + u * v * y11 ≤ M := by
  have w00 : (0 : ℚ) ≤ (1 - u) * (1 - v) := by nlinarith
  have w10 : (0 : ℚ) ≤ u * (1 - v) := by nlinarith
  have w01 : (0 : ℚ) ≤ (1 - u) * v := by nlinarith
  have w11 : (0 : ℚ) ≤ u * v := by nlinarith
  constructor
  · have t00 := mul_nonneg w00 h00
    have t10 := mul_nonneg w10 h10
    have t01 := mul_nonneg w01 h01
    have t11 := mul_nonneg w11 h11
    linarith
  · have t00 := mul_nonneg w00 (sub_nonneg.mpr h00M)
    have t10 := mul_nonneg w10 (sub_nonneg.mpr h10M)
    have t01 := mul_nonneg w01 (sub_nonneg.mpr h01M)
    have t11 := mul_nonneg w11 (sub_nonneg.mpr h11M)
    nlinarith

/-- Inside the terrain rectangle the fractional weights lie in `[0, 1)`. -/
theorem fracU_mem_Ico {x : ℚ} (h1 : -(terrainWidth / 2) ≤ x) :
    0 ≤ fracU x ∧ fracU x < 1 := by
  have hloc : 0 ≤ x + terrainWidth / 2 := by linarith
  constructor
  · exact div_nonneg (jsMod_nonneg hloc cellW_pos) cellW_pos.le
  · rw [fracU, div_lt_one cellW_pos]
    exact jsMod_lt hloc cellW_pos

/-- Inside the terrain rectangle the fractional weight `v` lies in `[0, 1)`. -/
theorem fracV_mem_Ico {z : ℚ} (h1 : -(terrainDepth / 2) ≤ z) :
    0 ≤ fracV z ∧ fracV z < 1 := by
  have hloc : 0 ≤ z + terrainDepth / 2 := by linarith
  constructor
  · exact div_nonneg (jsMod_nonneg hloc cellD_pos) cellD_pos.le
  · rw [fracV, div_lt_one cellD_pos]
    exact jsMod_lt hloc cellD_pos

/-- C8 amended: grid heights are quantized — every stored grid value is an
integer in `[0, 128]` and every vertex height is an integer multiple of
`heightScale / 128`.  For inputs with `x ≥ -terrainWidth/2` and
`z ≥ -terrainDepth/2` the interpolation weights lie in `[0, 1)`, so there the
query result is a convex combination of the quantized corner values and stays
in `[0, heightScale]`; for inputs left of those bounds the weights go negative
and the result can leave the corners' range (see the counterexample). -/
theorem c8_amended_quantization (noiseFn : ℚ → ℚ → ℚ → ℚ)
    (h : ∀ a b c, -1 ≤ noiseFn a b c ∧ noiseFn a b c ≤ 1) :
    (∀ i : ℕ, dataVal noiseFn i ≤ 128 ∧
      ∃ k : ℕ, k ≤ 128 ∧ vertexY noiseFn i = (k : ℚ) * (heightScale / 128)) ∧
    (∀ x z : ℚ, -(terrainWidth / 2) ≤ x → -(terrainDepth / 2) ≤ z →
      0 ≤ getTerrainHeight (some (vertexY noiseFn)) x z ∧
        getTerrainHeight (some (vertexY noiseFn)) x z ≤ heightScale) := by
  have hdata : ∀ i : ℕ, dataVal noiseFn i ≤ 128 := by
    intro i
    obtain ⟨h1, h2⟩ := h ((i % worldWidth : ℕ) * noiseScale)
      ((i / worldWidth : ℕ) * noiseScale) 0
    have hq0 : 0 ≤ (noiseFn ((i % worldWidth : ℕ) * noiseScale)
        ((i / worldWidth : ℕ) * noiseScale) 0 * (1 / 2) + 1 / 2) * 128 := by nlinarith
    have hq1 : (noiseFn ((i % worldWidth : ℕ) * noiseScale)
        ((i / worldWidth : ℕ) * noiseScale) 0 * (1 / 2) + 1 / 2) * 128 ≤ 128 := by nlinarith
    have hfl := jsToUint8_eq_floor hq0 (by linarith)
    have : (dataVal noiseFn i : ℤ) ≤ 128 := by
      rw [dataVal, hfl]
      have : ((⌊(noiseFn ((i % worldWidth : ℕ) * noiseScale)
          ((i / worldWidth : ℕ) * noiseScale) 0 * (1 / 2) + 1 / 2) * 128⌋ : ℤ) : ℚ) ≤ 128 :=
        (Int.floor_le _).trans hq1
      exact_mod_cast this
    exact_mod_cast this
  refine ⟨fun i => ⟨hdata i, dataVal noiseFn i, hdata i, rfl⟩, fun x z hx hz => ?_⟩
  obtain ⟨hu0, hu1⟩ := fracU_mem_Ico hx
  obtain ⟨hv0, hv1⟩ := fracV_mem_Ico hz
  rw [getTerrainHeight_some]
  have b00 := vertexY_bounds noiseFn h (p00Index x z).toNat
  have b10 := vertexY_bounds noiseFn h (p10Index x z).toNat
  have b01 := vertexY_bounds noiseFn h (p01Index x z).toNat
  have b11 := vertexY_bounds noiseFn h (p11Index x z).toNat
  exact bilinear_mem_Icc hu0 hu1.le hv0 hv1.le b00.1 b00.2 b10.1 b10.2
    b01.1 b01.2 b11.1 b11.2

/-- Witness for the amended C8 at the constant noise function `1/3` and the
in-bounds query point `(10, -20)`. -/
theorem c8_amended_quantization_witness :
    (∀ a b c : ℚ, -1 ≤ (fun (_ _ _ : ℚ) => (1 : ℚ) / 3) a b c ∧
        (fun (_ _ _ : ℚ) => (1 : ℚ) / 3) a b c ≤ 1) ∧
    ((∀ i : ℕ, dataVal (fun (_ _ _ : ℚ) => (1 : ℚ) / 3) i ≤ 128 ∧
        ∃ k : ℕ, k ≤ 128 ∧ vertexY (fun (_ _ _ : ℚ) => (1 : ℚ) / 3) i =
          (k : ℚ) * (heightScale / 128)) ∧
      (∀ x z : ℚ, -(terrainWidth / 2) ≤ x → -(terrainDepth / 2) ≤ z →
        0 ≤ getTerrainHeight (some (vertexY (fun (_ _ _ : ℚ) => (1 : ℚ) / 3))) x z ∧
          getTerrainHeight (some (vertexY (fun (_ _ _ : ℚ) => (1 : ℚ) / 3))) x z ≤
            heightScale)) :=
  ⟨fun _ _ _ => ⟨by norm_num, by norm_num⟩,
    c8_amended_quantization (fun (_ _ _ : ℚ) => (1 : ℚ) / 3)
      (fun _ _ _ => ⟨by norm_num, by norm_num⟩)⟩

end CarGameRoad

namespace CarGameRoad

/-! ### Road generation (generateRoads, lines 229-293)

The planned path has `roadSegments + 1` points: `z` runs from
`-terrainDepth/2` in steps of `terrainDepth / roadSegments`, and
`x = Math.sin(z * 0.05) * 5` with `y = 0`.  `Math.sin` is a black-box
parameter `mathSin`. -/

structure Vec3 where
  x : ℚ
  y : ℚ
  z : ℚ
deriving DecidableEq, Repr

/-- `roadStartZ = -terrainDepth / 2`. -/
def roadStartZ : ℚ := -(terrainDepth / 2)

/-- `roadSegmentLength = terrainDepth / roadSegments`. -/
def roadSegmentLength : ℚ := terrainDepth / roadSegments

/-- The `i`-th planned path point: `x = Math.sin(z * 0.05) * 5`, `y = 0`. -/
def plannedPathPoint (mathSin : ℚ → ℚ) (i : ℕ) : Vec3 :=
  { x := mathSin ((roadStartZ + i * roadSegmentLength) * (1 / 20)) * 5
    y := 0
    z := roadStartZ + i * roadSegmentLength }

/-- The full planned path (`roadSegments + 1` points, the loop is
`for i = 0; i <= roadSegments`). -/
def plannedPathPoints (mathSin : ℚ → ℚ) : List Vec3 :=
  (List.range (roadSegments + 1)).map (plannedPathPoint mathSin)

/-- The conform pass on one point:
`p.y = getTerrainHeight(p.x, p.z) + 0.1`, with `x` and `z` untouched. -/
def conformPoint (terrain : Option (ℕ → ℚ)) (p : Vec3) : Vec3 :=
  { x := p.x, y := getTerrainHeight terrain p.x p.z + 1 / 10, z := p.z }

/-- `divisions = roadSegments * 2`. -/
def divisions : ℕ := roadSegments * 2

/-- A tube geometry: per-vertex positions and per-vertex UV pairs. -/
structure TubeGeom where
  position : List Vec3
  uv : List (ℚ × ℚ)

/-- Vertex count of an open three.js tube: one ring per tubular step
(`tubularSegments + 1` rings), `radialSegments + 1` vertices per ring. -/
def tubeVertexCount (tubularSegments radialSegments : ℕ) : ℕ :=
  (tubularSegments + 1) * (radialSegments + 1)

/-- Modelled from the spec: `THREE.TubeGeometry` is an external three.js class
(not under src/).  Per spec §3 (RoadMesh) and §4.3, an open tube sweep with
`tubularSegments` divisions and `radialSegments` around the cross-section has
a fixed topology — one position and one UV pair per (ring, radial) index — so
the buffer sizes depend only on the two segment counts.  The actual
Frenet-frame vertex placement and the default UV layout are black boxes,
passed in as `sweep` and `uvInit`. -/
def tubeGeometry (sweep : List Vec3 → ℕ → Vec3) (uvInit : ℕ → ℚ × ℚ)
    (pts : List Vec3) (tubularSegments radialSegments : ℕ) : TubeGeom :=
  { position := (List.range (tubeVertexCount tubularSegments radialSegments)).map (sweep pts)
    uv := (List.range (tubeVertexCount tubularSegments radialSegments)).map uvInit }

/-- The UV rewrite loop (lines 255-264): for each vertex,
`u = (x / (roadWidth/2) + 1) / 2` and `v = z / roadLength * roadTextureRepeat`. -/
def rewriteUV (roadLength : ℚ) (g : TubeGeom) : List (ℚ × ℚ) :=
  g.position.map fun p =>
    ((p.x / (roadWidth / 2) + 1) / 2, p.z / roadLength * roadTextureRepeat)

/-- The road mesh at the end of `generateRoads`: its two geometries (before and
after the conform pass), the conformed path, and the mesh transform fields. -/
structure RoadMeshState where
  plannedPoints : List Vec3
  preGeom : TubeGeom
  conformedPoints : List Vec3
  geometry : TubeGeom
  posX : ℚ
  posY : ℚ
  posZ : ℚ
  rotX : ℚ
  rotY : ℚ
  rotZ : ℚ
  scaleX : ℚ
  scaleY : ℚ
  scaleZ : ℚ
  castShadow : Bool
  receiveShadow : Bool

/-- `generateRoads` as a trace of its effects on the road mesh.  `sweep` and
`uvInit` abstract the tube-sweep vertex placement and default UV layout of
`THREE.TubeGeometry`; `curveLength` abstracts `CatmullRomCurve3.getLength`.
Pass 1 plans the path and builds the tube; the UV loop overwrites the UV
attribute; `roadMesh.position.y = 0.5` lifts the mesh; pass 2 conforms every
point's height and rebuilds the tube with the same parameters, copying the
rewritten UVs verbatim onto the new geometry. -/
def generateRoads (sweep : List Vec3 → ℕ → Vec3) (uvInit : ℕ → ℚ × ℚ)
    (curveLength : List Vec3 → ℚ) (mathSin : ℚ → ℚ)
    (terrain : Option (ℕ → ℚ)) : RoadMeshState :=
  let pathPoints := plannedPathPoints mathSin
  let tubeGeo := tubeGeometry sweep uvInit pathPoints divisions 8
  let roadLength := curveLength pathPoints
  let tubeGeo1 : TubeGeom := { tubeGeo with uv := rewriteUV roadLength tubeGeo }
  let conformed := pathPoints.map (conformPoint terrain)
  let updatedTubeGeo := tubeGeometry sweep uvInit conformed divisions 8
  let finalGeo : TubeGeom := { updatedTubeGeo with uv := tubeGeo1.uv }
  { plannedPoints := pathPoints
    preGeom := tubeGeo1
    conformedPoints := conformed
    geometry := finalGeo
    posX := 0
    posY := 1 / 2
    posZ := 0
    rotX := 0
    rotY := 0
    rotZ := 0
    scaleX := 1
    scaleY := 1
    scaleZ := 1
    castShadow := true
    receiveShadow := true }

end CarGameRoad

namespace CarGameRoad

/-! ### Claim C6 -/

set_option maxRecDepth 8000 in
theorem generateRoads_posY (sweep : List Vec3 → ℕ → Vec3)
    (uvInit : ℕ → ℚ × ℚ) (curveLength : List Vec3 → ℚ)
    (mathSin : ℚ → ℚ) (terrain : Option (ℕ → ℚ)) :
    (generateRoads sweep uvInit curveLength mathSin terrain).posY = 1 / 2 :=
  rfl

theorem generateRoads_conformedPoints (sweep : List Vec3 → ℕ → Vec3)
    (uvInit : ℕ → ℚ × ℚ) (curveLength : List Vec3 → ℚ)
    (mathSin : ℚ → ℚ) (terrain : Option (ℕ → ℚ)) :
    (generateRoads sweep uvInit curveLength mathSin terrain).conformedPoints =
      (plannedPathPoints mathSin).map (conformPoint terrain) :=
  rfl

set_option maxRecDepth 8000 in
theorem generateRoads_geometry_uv (sweep : List Vec3 → ℕ → Vec3)
    (uvInit : ℕ → ℚ × ℚ) (curveLength : List Vec3 → ℚ)
    (mathSin : ℚ → ℚ) (terrain : Option (ℕ → ℚ)) :
    (generateRoads sweep uvInit curveLength mathSin terrain).geometry.uv =
      rewriteUV (curveLength (plannedPathPoints mathSin))
        (tubeGeometry sweep uvInit (plannedPathPoints mathSin) divisions 8) :=
  rfl

set_option maxRecDepth 8000 in
theorem generateRoads_preGeom_uv (sweep : List Vec3 → ℕ → Vec3)
    (uvInit : ℕ → ℚ × ℚ) (curveLength : List Vec3 → ℚ)
    (mathSin : ℚ → ℚ) (terrain : Option (ℕ → ℚ)) :
    (generateRoads sweep uvInit curveLength mathSin terrain).preGeom.uv =
      rewriteUV (curveLength (plannedPathPoints mathSin))
        (tubeGeometry sweep uvInit (plannedPathPoints mathSin) divisions 8) :=
  rfl

set_option maxRecDepth 8000 in
theorem generateRoads_geometry_position (sweep : List Vec3 → ℕ → Vec3)
    (uvInit : ℕ → ℚ × ℚ) (curveLength : List Vec3 → ℚ)
    (mathSin : ℚ → ℚ) (terrain : Option (ℕ → ℚ)) :
    (generateRoads sweep uvInit curveLength mathSin terrain).geometry.position =
      (tubeGeometry sweep uvInit
        ((plannedPathPoints mathSin).map (conformPoint terrain)) divisions 8).position :=
  rfl

set_option maxRecDepth 8000 in
theorem generateRoads_preGeom_position (sweep : List Vec3 → ℕ → Vec3)
    (uvInit : ℕ → ℚ × ℚ) (curveLength : List Vec3 → ℚ)
    (mathSin : ℚ → ℚ) (terrain : Option (ℕ → ℚ)) :
    (generateRoads sweep uvInit curveLength mathSin terrain).preGeom.position =
      (tubeGeometry sweep uvInit (plannedPathPoints mathSin) divisions 8).position :=
  rfl

/-- C6: in the conform pass, every planned point's height is overwritten with
exactly `heightQuery(p.x, p.z) + 0.1` (x and z unchanged), and the rebuilt
tube reuses the previously computed UV attribute verbatim: the final UV list
equals the pre-conform rewritten one, and vertex and UV counts are unchanged
by the rebuild. -/
theorem c6_conform_and_uv_reuse (sweep : List Vec3 → ℕ → Vec3)
    (uvInit : ℕ → ℚ × ℚ) (curveLength : List Vec3 → ℚ)
    (mathSin : ℚ → ℚ) (getY : ℕ → ℚ) :
    (∀ i : ℕ, i < roadSegments + 1 →
      (generateRoads sweep uvInit curveLength mathSin (some getY)).conformedPoints.get? i =
        some { x := (plannedPathPoint mathSin i).x
               y := getTerrainHeight (some getY) (plannedPathPoint mathSin i).x
                      (plannedPathPoint mathSin i).z + 1 / 10
               z := (plannedPathPoint mathSin i).z }) ∧
    (generateRoads sweep uvInit curveLength mathSin (some getY)).geometry.uv =
      (generateRoads sweep uvInit curveLength mathSin (some getY)).preGeom.uv ∧
    (generateRoads sweep uvInit curveLength mathSin (some getY)).geometry.position.length =
      (generateRoads sweep uvInit curveLength mathSin (some getY)).preGeom.position.length ∧
    (generateRoads sweep uvInit curveLength mathSin (some getY)).geometry.uv.length =
      (generateRoads sweep uvInit curveLength mathSin (some getY)).preGeom.uv.length ∧
    (generateRoads sweep uvInit curveLength mathSin (some getY)).geometry.position.length =
      tubeVertexCount divisions 8 := by
  refine ⟨fun i hi => ?_, ?_, ?_, ?_, ?_⟩
  · rw [generateRoads_conformedPoints, plannedPathPoints, List.map_map,
      List.get?_map, List.get?_range hi]
    rfl
  · rw [generateRoads_geometry_uv, generateRoads_preGeom_uv]
  · rw [generateRoads_geometry_position, generateRoads_preGeom_position]
    simp only [tubeGeometry, List.length_map, List.length_range]
  · rw [generateRoads_geometry_uv, generateRoads_preGeom_uv]
  · rw [generateRoads_geometry_position]
    simp only [tubeGeometry, List.length_map, List.length_range]

/-- Witness for C6: concrete black boxes, the conformed point at `i = 0`
evaluated. -/
theorem c6_conform_and_uv_reuse_witness :
    0 < roadSegments + 1 ∧
      (generateRoads (fun _ _ => ⟨0, 0, 0⟩) (fun _ => (0, 0)) (fun _ => 1)
          (fun _ => 0) (some (fun _ => 0))).conformedPoints.get? 0 =
        some { x := 0, y := 1 / 10, z := -400 } ∧
      (generateRoads (fun _ _ => ⟨0, 0, 0⟩) (fun _ => (0, 0)) (fun _ => 1)
          (fun _ => 0) (some (fun _ => 0))).geometry.uv =
        (generateRoads (fun _ _ => ⟨0, 0, 0⟩) (fun _ => (0, 0)) (fun _ => 1)
          (fun _ => 0) (some (fun _ => 0))).preGeom.uv := by
  have h := c6_conform_and_uv_reuse (fun _ _ => ⟨0, 0, 0⟩) (fun _ => (0, 0))
    (fun _ => 1) (fun _ => 0) (fun _ => 0)
  refine ⟨by norm_num, ?_, h.2.1⟩
  have h0 := h.1 0 (by norm_num [roadSegments])
  rw [h0]
  have hx : (plannedPathPoint (fun _ => 0) 0).x = 0 := by
    simp [plannedPathPoint]
  have hz : (plannedPathPoint (fun _ => 0) 0).z = -400 := by
    norm_num [plannedPathPoint, roadStartZ, terrainDepth]
  rw [hx, hz]
  norm_num [getTerrainHeight_some]

/-! ### Claim C10 -/

/-- C10: `roadMesh.position.y` is set to `0.5` before the conform pass and
never reset, so after `generateRoads` every conformed centerline point sits at
`posY + p.y = getTerrainHeight(p.x, p.z) + 0.6` in world space — the 0.1
per-point clearance plus the 0.5 mesh lift — while all other transform fields
of the road mesh keep their defaults (position x/z = 0, rotation 0, scale 1). -/
theorem c10_road_mesh_offset (sweep : List Vec3 → ℕ → Vec3)
    (uvInit : ℕ → ℚ × ℚ) (curveLength : List Vec3 → ℚ)
    (mathSin : ℚ → ℚ) (getY : ℕ → ℚ) :
    (generateRoads sweep uvInit curveLength mathSin (some getY)).posY = 1 / 2 ∧
    (generateRoads sweep uvInit curveLength mathSin (some getY)).posX = 0 ∧
    (generateRoads sweep uvInit curveLength mathSin (some getY)).posZ = 0 ∧
    (generateRoads sweep uvInit curveLength mathSin (some getY)).rotX = 0 ∧
    (generateRoads sweep uvInit curveLength mathSin (some getY)).rotY = 0 ∧
    (generateRoads sweep uvInit curveLength mathSin (some getY)).rotZ = 0 ∧
    (generateRoads sweep uvInit curveLength mathSin (some getY)).scaleX = 1 ∧
    (generateRoads sweep uvInit curveLength mathSin (some getY)).scaleY = 1 ∧
    (generateRoads sweep uvInit curveLength mathSin (some getY)).scaleZ = 1 ∧
    (∀ i : ℕ, ∀ p : Vec3,
      (generateRoads sweep uvInit curveLength mathSin (some getY)).conformedPoints.get? i =
          some p →
        (generateRoads sweep uvInit curveLength mathSin (some getY)).posY + p.y =
          getTerrainHeight (some getY) p.x p.z + 6 / 10) := by
  refine ⟨rfl, rfl, rfl, rfl, rfl, rfl, rfl, rfl, rfl, fun i p hp => ?_⟩
  rw [generateRoads_conformedPoints, plannedPathPoints, List.map_map, List.get?_map] at hp
  cases hq : (List.range (roadSegments + 1)).get? i with
  | none =>
    rw [hq, Option.map_none'] at hp
    exact Option.noConfusion hp
  | some j =>
    rw [hq, Option.map_some'] at hp
    injection hp with hp
    subst hp
    rw [generateRoads_posY]
    simp only [Function.comp_apply, conformPoint]
    ring

/-- Evaluation of the first conformed point for the concrete black boxes used
in the witnesses. -/
theorem conformedPointZeroEval :
    (generateRoads (fun _ _ => ⟨0, 0, 0⟩) (fun _ => (0, 0)) (fun _ => 1)
        (fun _ => 0) (some (fun _ => 0))).conformedPoints.get? 0 =
      some { x := 0, y := 1 / 10, z := -400 } := by
  rw [generateRoads_conformedPoints, plannedPathPoints, List.map_map, List.get?_map,
    List.get?_range (by norm_num [roadSegments])]
  simp only [Option.map_some', Function.comp_apply, conformPoint, Option.some_inj]
  have hx : (plannedPathPoint (fun _ => 0) 0).x = 0 := by
    simp [plannedPathPoint]
  have hz : (plannedPathPoint (fun _ => 0) 0).z = -400 := by
    norm_num [plannedPathPoint, roadStartZ, terrainDepth]
  rw [hx, hz]
  norm_num [getTerrainHeight_some]

/-- Witness for C10 at `i = 0` with concrete black boxes. -/
theorem c10_road_mesh_offset_witness :
    (generateRoads (fun _ _ => ⟨0, 0, 0⟩) (fun _ => (0, 0)) (fun _ => 1)
        (fun _ => 0) (some (fun _ => 0))).conformedPoints.get? 0 =
      some { x := 0, y := 1 / 10, z := -400 } ∧
    (generateRoads (fun _ _ => ⟨0, 0, 0⟩) (fun _ => (0, 0)) (fun _ => 1)
        (fun _ => 0) (some (fun _ => 0))).posY +
        (Vec3.mk 0 (1 / 10) (-400)).y =
      getTerrainHeight (some (fun _ => 0)) (Vec3.mk 0 (1 / 10) (-400)).x
        (Vec3.mk 0 (1 / 10) (-400)).z + 6 / 10 := by
  refine ⟨conformedPointZeroEval, ?_⟩
  exact (c10_road_mesh_offset (fun _ _ => ⟨0, 0, 0⟩) (fun _ => (0, 0)) (fun _ => 1)
    (fun _ => 0) (fun _ => 0)).2.2.2.2.2.2.2.2.2 0 (Vec3.mk 0 (1 / 10) (-400))
    conformedPointZeroEval

end CarGameRoad

namespace CarGameRoad

/-! ### Tree population (populateTrees, lines 308-344)

`Math.random()` is modelled as a stream `rand : ℕ → ℚ` of values in `[0, 1)`,
consumed left to right; `Math.PI` is an abstract positive constant.  The
`do { ... } while` rejection loop is unbounded in JS; the model carries
explicit fuel and returns `none` on exhaustion (a modelling artifact — the JS
loop would simply keep sampling). -/

/-- `x = (Math.random() - 0.5) * terrainWidth * 0.9`. -/
def treeSampleX (r : ℚ) : ℚ := (r - 1 / 2) * terrainWidth * (9 / 10)

/-- `z = (Math.random() - 0.5) * terrainDepth * 0.9`. -/
def treeSampleZ (r : ℚ) : ℚ := (r - 1 / 2) * terrainDepth * (9 / 10)

/-- The rejection test of the do/while loop:
`Math.abs(x) < roadWidth * 1.5 && Math.abs(z) < terrainDepth * 0.5`. -/
def treeExcluded (x z : ℚ) : Bool :=
  decide (|x| < roadWidth * (3 / 2)) && decide (|z| < terrainDepth * (1 / 2))

/-- The do/while loop: draw `(x, z)` from the stream at index `k`, retry while
the sample is in the exclusion band.  Returns the accepted pair and the next
unconsumed stream index. -/
def treeLoop (rand : ℕ → ℚ) : ℕ → ℕ → Option ((ℚ × ℚ) × ℕ)
  | 0, _ => none
  | fuel + 1, k =>
    if treeExcluded (treeSampleX (rand k)) (treeSampleZ (rand (k + 1))) then
      treeLoop rand fuel (k + 2)
    else
      some ((treeSampleX (rand k), treeSampleZ (rand (k + 1))), k + 2)

/-- One placed tree instance: position, uniform scale and yaw rotation. -/
structure ScatterInstance where
  posX : ℚ
  posY : ℚ
  posZ : ℚ
  scale : ℚ
  rotY : ℚ
deriving DecidableEq, Repr

/-- `treeScale = 5`. -/
def treeScale : ℚ := 5

/-- Build one tree: accepted sample, `y = getTerrainHeight(x, z)`, uniform
scale, yaw `Math.random() * Math.PI * 2` (one more stream draw). -/
def makeTree (terrain : Option (ℕ → ℚ)) (mathPI : ℚ) (rand : ℕ → ℚ)
    (fuel k : ℕ) : Option (ScatterInstance × ℕ) :=
  match treeLoop rand fuel k with
  | none => none
  | some ((x, z), k2) =>
    some ({ posX := x, posY := getTerrainHeight terrain x z, posZ := z,
            scale := treeScale, rotY := rand k2 * mathPI * 2 }, k2 + 1)

/-- `numTrees = 500`. -/
def numTrees : ℕ := 500

/-- The placement loop for `n` trees, threading the random-stream index. -/
def populateTreesAux (terrain : Option (ℕ → ℚ)) (mathPI : ℚ) (rand : ℕ → ℚ)
    (fuel : ℕ) : ℕ → ℕ → List ScatterInstance
  | 0, _ => []
  | n + 1, k =>
    match makeTree terrain mathPI rand fuel k with
    | none => populateTreesAux terrain mathPI rand fuel n (k + 2 * fuel)
    | some (t, k2) => t :: populateTreesAux terrain mathPI rand fuel n k2

/-- `populateTrees`: place `numTrees` trees, starting at stream index 0. -/
def populateTrees (terrain : Option (ℕ → ℚ)) (mathPI : ℚ) (rand : ℕ → ℚ)
    (fuel : ℕ) : List ScatterInstance :=
  populateTreesAux terrain mathPI rand fuel numTrees 0

/-! ### Claim C7 -/

theorem treeExcluded_eq_false_iff (x z : ℚ) :
    treeExcluded x z = false ↔ ¬(|x| < 18 ∧ |z| < 400) := by
  rw [treeExcluded]
  have h1 : roadWidth * (3 / 2) = 18 := by norm_num [roadWidth]
  have h2 : terrainDepth * (1 / 2) = 400 := by norm_num [terrainDepth]
  rw [h1, h2]
  simp [Bool.and_eq_false_iff]

/-- Every pair accepted by the rejection loop fails the exclusion test and is
built from two stream draws. -/
theorem treeLoop_spec (rand : ℕ → ℚ) (fuel k : ℕ) (x z : ℚ) (k2 : ℕ)
    (h : treeLoop rand fuel k = some ((x, z), k2)) :
    treeExcluded x z = false ∧
      ∃ a b : ℕ, x = treeSampleX (rand a) ∧ z = treeSampleZ (rand b) := by
  induction fuel generalizing k with
  | zero => simp [treeLoop] at h
  | succ fuel ih =>
    rw [treeLoop] at h
    by_cases hex : treeExcluded (treeSampleX (rand k)) (treeSampleZ (rand (k + 1))) = true
    · rw [if_pos hex] at h
      exact ih _ h
    · rw [if_neg hex] at h
      simp only [Option.some_inj, Prod.mk.injEq] at h
      obtain ⟨⟨hx, hz⟩, _⟩ := h
      subst hx
      subst hz
      exact ⟨Bool.eq_false_iff.mpr hex, k, k + 1, rfl, rfl⟩

theorem treeSampleX_bounds {r : ℚ} (h0 : 0 ≤ r) (h1 : r < 1) :
    -((9 / 20) * terrainWidth) ≤ treeSampleX r ∧
      treeSampleX r ≤ (9 / 20) * terrainWidth := by
  rw [treeSampleX, terrainWidth]
  constructor <;> nlinarith

theorem treeSampleZ_bounds {r : ℚ} (h0 : 0 ≤ r) (h1 : r < 1) :
    -((9 / 20) * terrainDepth) ≤ treeSampleZ r ∧
      treeSampleZ r ≤ (9 / 20) * terrainDepth := by
  rw [treeSampleZ, terrainDepth]
  constructor <;> nlinarith

/-- Every instance produced by `makeTree` satisfies the exclusion, margin,
height, scale and yaw-range properties. -/
theorem makeTree_spec (terrain : Option (ℕ → ℚ)) (mathPI : ℚ) (rand : ℕ → ℚ)
    (fuel k : ℕ) (t : ScatterInstance) (k2 : ℕ)
    (hr : ∀ n, 0 ≤ rand n ∧ rand n < 1) (hp : 0 < mathPI)
    (h : makeTree terrain mathPI rand fuel k = some (t, k2)) :
    ¬(|t.posX| < 18 ∧ |t.posZ| < 400) ∧
    -((9 / 20) * terrainWidth) ≤ t.posX ∧ t.posX ≤ (9 / 20) * terrainWidth ∧
    -((9 / 20) * terrainDepth) ≤ t.posZ ∧ t.posZ ≤ (9 / 20) * terrainDepth ∧
    t.posY = getTerrainHeight terrain t.posX t.posZ ∧
    t.scale = treeScale ∧
    0 ≤ t.rotY ∧ t.rotY < 2 * mathPI := by
  rw [makeTree] at h
  cases hl : treeLoop rand fuel k with
  | none => rw [hl] at h; exact Option.noConfusion h
  | some acc =>
    rw [hl] at h
    obtain ⟨⟨x, z⟩, k3⟩ := acc
    simp only [Option.some_inj, Prod.mk.injEq] at h
    obtain ⟨ht, _⟩ := h
    obtain ⟨hex, a, b, hxa, hzb⟩ := treeLoop_spec rand fuel k x z k3 hl
    subst ht
    refine ⟨(treeExcluded_eq_false_iff x z).mp hex, ?_, ?_, ?_, ?_, rfl, rfl, ?_, ?_⟩
    · rw [hxa]; exact (treeSampleX_bounds (hr a).1 (hr a).2).1
    · rw [hxa]; exact (treeSampleX_bounds (hr a).1 (hr a).2).2
    · rw [hzb]; exact (treeSampleZ_bounds (hr b).1 (hr b).2).1
    · rw [hzb]; exact (treeSampleZ_bounds (hr b).1 (hr b).2).2
    · exact mul_nonneg (mul_nonneg (hr k3).1 hp.le) (by norm_num)
    · show rand k3 * mathPI * 2 < 2 * mathPI
      nlinarith [(hr k3).1, (hr k3).2]

/-- Every tree in the placement loop's output satisfies the per-instance
properties. -/
theorem populateTreesAux_mem (terrain : Option (ℕ → ℚ)) (mathPI : ℚ)
    (rand : ℕ → ℚ) (fuel n k : ℕ)
    (hr : ∀ m, 0 ≤ rand m ∧ rand m < 1) (hp : 0 < mathPI) :
    ∀ t ∈ populateTreesAux terrain mathPI rand fuel n k,
      ¬(|t.posX| < 18 ∧ |t.posZ| < 400) ∧
      -((9 / 20) * terrainWidth) ≤ t.posX ∧ t.posX ≤ (9 / 20) * terrainWidth ∧
      -((9 / 20) * terrainDepth) ≤ t.posZ ∧ t.posZ ≤ (9 / 20) * terrainDepth ∧
      t.posY = getTerrainHeight terrain t.posX t.posZ ∧
      t.scale = treeScale ∧
      0 ≤ t.rotY ∧ t.rotY < 2 * mathPI := by
  induction n generalizing k with
  | zero =>
    intro t ht
    simp [populateTreesAux] at ht
  | succ n ih =>
    intro t ht
    rw [populateTreesAux] at ht
    cases hm : makeTree terrain mathPI rand fuel k with
    | none =>
      rw [hm] at ht
      exact ih _ t ht
    | some tk =>
      rw [hm] at ht
      obtain ⟨t2, k2⟩ := tk
      rcases List.mem_cons.mp ht with hh | hh
      · subst hh
        exact makeTree_spec terrain mathPI rand fuel k t k2 hr hp hm
      · exact ih _ t hh

/-- C7: every one of the `numTrees = 500` scatter instances satisfies
`¬(|x| < 18 ∧ |z| < 400)` (the exclusion band), lies within the 0.45-margin
sampling bounds in both axes, takes its height from the height query, carries
the uniform scale, and has yaw in `[0, 2π)`. -/
theorem c7_tree_placement (terrain : Option (ℕ → ℚ)) (mathPI : ℚ)
    (rand : ℕ → ℚ) (fuel : ℕ)
    (hr : ∀ m, 0 ≤ rand m ∧ rand m < 1) (hp : 0 < mathPI) :
    numTrees = 500 ∧
      ∀ t ∈ populateTrees terrain mathPI rand fuel,
        ¬(|t.posX| < 18 ∧ |t.posZ| < 400) ∧
        -((9 / 20) * terrainWidth) ≤ t.posX ∧ t.posX ≤ (9 / 20) * terrainWidth ∧
        -((9 / 20) * terrainDepth) ≤ t.posZ ∧ t.posZ ≤ (9 / 20) * terrainDepth ∧
        t.posY = getTerrainHeight terrain t.posX t.posZ ∧
        t.scale = treeScale ∧
        0 ≤ t.rotY ∧ t.rotY < 2 * mathPI :=
  ⟨rfl, populateTreesAux_mem terrain mathPI rand fuel numTrees 0 hr hp⟩

/-- Witness for C7: constant stream `9/10`, `π` stand-in `3`, fuel 1. -/
theorem c7_tree_placement_witness :
    (∀ m : ℕ, 0 ≤ (fun _ : ℕ => (9 : ℚ) / 10) m ∧ (fun _ : ℕ => (9 : ℚ) / 10) m < 1) ∧
    (0 : ℚ) < 3 ∧
    (numTrees = 500 ∧
      ∀ t ∈ populateTrees (some (fun _ => 0)) 3 (fun _ : ℕ => (9 : ℚ) / 10) 1,
        ¬(|t.posX| < 18 ∧ |t.posZ| < 400) ∧
        -((9 / 20) * terrainWidth) ≤ t.posX ∧ t.posX ≤ (9 / 20) * terrainWidth ∧
        -((9 / 20) * terrainDepth) ≤ t.posZ ∧ t.posZ ≤ (9 / 20) * terrainDepth ∧
        t.posY = getTerrainHeight (some (fun _ => 0)) t.posX t.posZ ∧
        t.scale = treeScale ∧
        0 ≤ t.rotY ∧ t.rotY < 2 * 3) :=
  ⟨fun _ => ⟨by norm_num, by norm_num⟩, by norm_num,
    c7_tree_placement (some (fun _ => 0)) 3 (fun _ : ℕ => (9 : ℚ) / 10) 1
      (fun _ => ⟨by norm_num, by norm_num⟩) (by norm_num)⟩

end CarGameRoad
